import Mathlib

/-
Shallow embedding of the Text-to-Speech repository (src/main.py and
src/tts_api.py).  External effects (the edge-tts synthesis service, the
googletrans translation service, shell playback, webbrowser.open) are
modelled as oracle functions packaged in an environment, and the side
effects the code performs (translating, writing an audio file, invoking
the audio player) are recorded as an event trace.
-/

namespace TTS

/-- Character-list prefix test used to model the Python substring
operator `pat in s` (source: src/main.py line 111,
`"already running" in str(e)`). -/
def startsWithL : List Char → List Char → Bool
  | _, [] => true
  | [], _ :: _ => false
  | a :: l, b :: p => a == b && startsWithL l p

/-- Character-list substring test: does `p` occur contiguously in the
first list? -/
def containsSubL : List Char → List Char → Bool
  | [], p => p.isEmpty
  | a :: l, p => startsWithL (a :: l) p || containsSubL l p

/-- String substring test: models the Python expression `pat in s`. -/
def containsSubstring (s pat : String) : Bool :=
  containsSubL s.data pat.data

/-- Observable side effects of the pipeline:
`translated` records the translation step printing its result
(main.py line 75), `wrote` records the synthesis service writing the
audio file (main.py line 35), `played` records the invocation of
`play_audio` (main.py line 87), and `shellPlay` / `webOpen` record the
internal steps of `play_audio` itself (main.py lines 149-177). -/
inductive Event where
  | translated : String → Event
  | wrote : String → Event
  | played : String → Event
  | shellPlay : String → Event
  | webOpen : String → Event
  deriving DecidableEq

/-- The mutable engine configuration of class `EdgeTTS`
(src/main.py lines 11-15): voice, rate, volume. -/
structure EdgeTTS where
  voice : String
  rate : String
  volume : String
  deriving DecidableEq

/-- The constructor defaults of `EdgeTTS.__init__` (main.py lines 12-14). -/
def EdgeTTS.fresh : EdgeTTS :=
  { voice := "hi-IN-MadhurNeural", rate := "+0%", volume := "+0%" }

/-- `tts.set_voice(v)` (main.py lines 41-43). -/
def set_voice (tts : EdgeTTS) (v : String) : EdgeTTS :=
  { tts with voice := v }

/-- `tts.set_rate(r)` (main.py lines 45-47). -/
def set_rate (tts : EdgeTTS) (r : String) : EdgeTTS :=
  { tts with rate := r }

/-- `tts.set_volume(v)` (main.py lines 49-51). -/
def set_volume (tts : EdgeTTS) (v : String) : EdgeTTS :=
  { tts with volume := v }

/-- Oracle environment for the two external services.
`trans text dest` is the outcome of `self.translator.translate(text,
dest=dest).text`: `Except.error` means that call raised an exception.
`synth cfg text out` is the outcome of `_generate_speech` (main.py
lines 17-39), which already catches every exception of the synthesis
service and converts it into a boolean, so it is modelled as a plain
boolean oracle depending on the engine configuration, the (possibly
translated) text and the output path. -/
structure Env where
  trans : String → String → Except String String
  synth : EdgeTTS → String → String → Bool

/-- `EdgeTTS.translate_text` (main.py lines 53-60): try the translation
service; on any exception print the error and return the original text. -/
def translate_text (env : Env) (text : String) (target_language : String) : String :=
  match env.trans text target_language with
  | Except.ok t => t
  | Except.error _ => text

/-- `EdgeTTS.speak_async` (main.py lines 62-91): optionally translate to
Hindi, generate speech via `_generate_speech`, return `false` if that
fails, otherwise invoke `play_audio` on the output file (its result is
discarded) and return `true`.  A successful synthesis writes the output
file.  Nothing in the modelled body raises, so the outer
`except Exception` handler of the source is unreachable here. -/
def speak_async (env : Env) (tts : EdgeTTS) (text : String)
    (output_file : String) (translate_to_hindi : Bool) : Bool × List Event :=
  let text1 := if translate_to_hindi then translate_text env text "hi" else text
  let preEvents : List Event :=
    if translate_to_hindi then [Event.translated text1] else []
  if env.synth tts text1 output_file then
    (true, preEvents ++ [Event.wrote output_file, Event.played output_file])
  else
    (false, preEvents)

/-- `EdgeTTS.speak` (main.py lines 93-140), the Synchronous Bridge.
`sched` models what `loop.run_until_complete` does at the call site:
`none` means no scheduler is active and the fresh event loop runs the
pipeline to completion; `some msg` means it raises `RuntimeError(msg)`.
If the message contains "already running" the source runs the very same
pipeline on a dedicated worker thread with its own fresh loop, stores
the boolean in `result[0]`, joins the thread and returns the stored
result; any other `RuntimeError` is re-raised (`Except.error`). -/
def speak (env : Env) (tts : EdgeTTS) (text : String) (output_file : String)
    (translate_to_hindi : Bool) (sched : Option String) :
    Except String (Bool × List Event) :=
  match sched with
  | none =>
      Except.ok (speak_async env tts text output_file translate_to_hindi)
  | some msg =>
      if containsSubstring msg "already running" then
        Except.ok (speak_async env tts text output_file translate_to_hindi)
      else
        Except.error msg

/-- Host platform as dispatched on by `play_audio` (main.py lines
146-168): `os.name == "nt"`, `os.name == "posix"` with
`platform.system() == "Darwin"`, other posix, or anything else. -/
inductive OSKind where
  | nt : OSKind
  | posixDarwin : OSKind
  | posixOther : OSKind
  | unsupported : OSKind
  deriving DecidableEq

/-- Environment for `play_audio`: the host platform, whether the primary
shell-playback attempt raises an exception, and whether the
`webbrowser.open` fallback raises an exception. -/
structure PlayEnv where
  os : OSKind
  shellRaises : Bool
  webOpenRaises : Bool
  deriving DecidableEq

/-- The fallback branch of `play_audio` (main.py lines 173-181): try
`webbrowser.open(file_path)` and return `true`; if that raises, print
and return `false`.  The open is attempted in both cases. -/
def webFallback (penv : PlayEnv) (file_path : String) : Bool × List Event :=
  if penv.webOpenRaises then (false, [Event.webOpen file_path])
  else (true, [Event.webOpen file_path])

/-- `EdgeTTS.play_audio` (main.py lines 142-181): dispatch on the
platform to one shell command and return `true`; if the attempt raises,
fall back to `webFallback`.  On an unsupported platform the `else`
branch inside the `try` block prints and returns `false` directly -
no exception is raised there, so the fallback is never reached.
When the primary attempt raises, the exception may occur before the
shell command runs, so no `shellPlay` event is recorded for it. -/
def play_audio (penv : PlayEnv) (file_path : String) : Bool × List Event :=
  match penv.os with
  | OSKind.nt =>
      if penv.shellRaises then webFallback penv file_path
      else (true, [Event.shellPlay ("start \"\" \"" ++ file_path ++ "\"")])
  | OSKind.posixDarwin =>
      if penv.shellRaises then webFallback penv file_path
      else (true, [Event.shellPlay ("afplay \"" ++ file_path ++ "\"")])
  | OSKind.posixOther =>
      if penv.shellRaises then webFallback penv file_path
      else (true, [Event.shellPlay ("aplay \"" ++ file_path ++ "\"")])
  | OSKind.unsupported => (false, [])

/-- One entry of the `requests` array of a batch JSON file.  Each field
is optional; `process_json_input` and the HTTP handler read them with
`request.get(key, default)`. -/
structure TTSRequest where
  text : Option String
  voice : Option String
  rate : Option String
  volume : Option String
  translate_to_hindi : Option Bool
  output_file : Option String
  deriving DecidableEq

/-- The default output filename `f"output_{i+1}.mp3"` for the request at
zero-based index `i` (main.py line 255, tts_api.py line 127). -/
def defaultOutputFile (i : Nat) : String :=
  "output_" ++ toString (i + 1) ++ ".mp3"

/-- The engine configuration installed for a request by the three
`set_voice` / `set_rate` / `set_volume` calls with the request fields or
their defaults (main.py lines 250-267, tts_api.py lines 121-123 and
49-52). -/
def requestConfig (r : TTSRequest) : EdgeTTS :=
  { voice := r.voice.getD "hi-IN-MadhurNeural"
    rate := r.rate.getD "+0%"
    volume := r.volume.getD "+0%" }

/-- The event filter selecting written audio files from a trace: the
output files a run produces. -/
def isWrote : Event → Option String
  | Event.wrote f => some f
  | _ => none

/-- The output files recorded in a trace. -/
def outputFiles (evs : List Event) : List String :=
  evs.filterMap isWrote

/-- Outcome of opening and JSON-parsing the batch file in
`process_json_input` (main.py lines 240-248): either some exception is
raised while reading or parsing (or the top level has no usable
`requests` list), or a list of requests is obtained from
`data.get("requests", [])`. -/
inductive JsonInput where
  | parseError : String → JsonInput
  | parsed : List TTSRequest → JsonInput
  deriving DecidableEq

/-- The per-request loop of `process_json_input` (main.py lines
248-273), as the trace it produces.  `i` is the `enumerate` index and
`tts` the current engine state.  An empty text is skipped (the index
still advances); otherwise the engine is reconfigured and `tts.speak` is
called at a plain call site - the CLI has no active scheduler, so the
bridge takes its first path (`sched = none`) and cannot raise; its
boolean result is discarded.  A one-second sleep between requests is a
timing effect with no functional content and is not modelled. -/
def processRequests (env : Env) : Nat → EdgeTTS → List TTSRequest → List Event
  | _, _, [] => []
  | i, tts, r :: rest =>
      if r.text.getD "" = "" then processRequests env (i + 1) tts rest
      else
        let tts1 := requestConfig r
        let out := r.output_file.getD (defaultOutputFile i)
        match speak env tts1 (r.text.getD "") out
            (r.translate_to_hindi.getD false) none with
        | Except.ok res => res.2 ++ processRequests env (i + 1) tts1 rest
        | Except.error _ => []

/-- `process_json_input` (main.py lines 237-279).  The whole body sits
inside `try ... except Exception`, so a read/parse failure (including a
`json.JSONDecodeError`) is caught, printed and turned into a plain
`False` return - it never propagates to the caller.  The `Except` result
type records exactly that: an exception escaping to the caller would be
`Except.error`, and no input produces one. -/
def process_json_input (env : Env) (input : JsonInput) :
    Except String (Bool × List Event) :=
  match input with
  | JsonInput.parseError _ => Except.ok (false, [])
  | JsonInput.parsed reqs =>
      Except.ok (true, processRequests env 0 EdgeTTS.fresh reqs)

/-- The server-local output directory of tts_api.py (line 20), as an
abstract path constant; `os.path.join(OUTPUT_DIR, name)` becomes
`OUTPUT_DIR ++ "/" ++ name`. -/
def OUTPUT_DIR : String := "tts_output"

/-- `os.path.basename`, used when listing generated files
(tts_api.py line 160): the part of the path after the last slash. -/
def basenameL : List Char → List Char
  | [] => []
  | c :: rest => if c == '/' then basenameL rest
      else if rest.contains '/' then basenameL rest
      else c :: rest

/-- String form of `basenameL`. -/
def basename (p : String) : String :=
  String.mk (basenameL p.data)

/-- `generate_speech` of the HTTP service (tts_api.py lines 37-70):
configure the shared engine with the given voice, rate and volume, then
await `speak_async` on it.  The modelled body raises nothing, so its
`except Exception` handler is unreachable. -/
def generate_speech (env : Env) (text voice rate volume output_file : String)
    (translate_to_hindi : Bool) : Bool × List Event :=
  speak_async env
    (set_volume (set_rate (set_voice EdgeTTS.fresh voice) rate) volume)
    text output_file translate_to_hindi

/-- Shape of the uploaded batch file after `json.load` in
`process_tts_json` (tts_api.py lines 94-105): the parse raised a
`JSONDecodeError`, or the object has no `requests` key, or `requests`
is not a list, or a list of requests was obtained. -/
inductive BatchJson where
  | malformed : String → BatchJson
  | noRequestsKey : BatchJson
  | requestsNotList : BatchJson
  | requestsList : List TTSRequest → BatchJson
  deriving DecidableEq

/-- The HTTP response shapes of `process_tts_json`: a JSON object with
an `error` key, a binary `FileResponse`, or the JSON summary listing
several generated files. -/
inductive TtsResponse where
  | jsonError : String → TtsResponse
  | fileResponse : String → TtsResponse
  | filesSummary : List String → TtsResponse
  deriving DecidableEq

/-- The per-request loop of `process_tts_json` (tts_api.py lines
116-136), returning the collected `output_files` paths and the trace.
`i` is the `enumerate` index over the processed list; an empty text is
skipped with `continue` (the index still advances); otherwise the output
path is `OUTPUT_DIR` joined with the explicit or default filename, and
the path is collected exactly when `generate_speech` returns `true`. -/
def httpLoop (env : Env) : Nat → List TTSRequest → List String × List Event
  | _, [] => ([], [])
  | i, r :: rest =>
      if r.text.getD "" = "" then httpLoop env (i + 1) rest
      else
        let output_path := OUTPUT_DIR ++ "/" ++ r.output_file.getD (defaultOutputFile i)
        let res := generate_speech env (r.text.getD "")
          (r.voice.getD "hi-IN-MadhurNeural") (r.rate.getD "+0%")
          (r.volume.getD "+0%") output_path (r.translate_to_hindi.getD false)
        let rest2 := httpLoop env (i + 1) rest
        ((if res.1 then [output_path] else []) ++ rest2.1, res.2 ++ rest2.2)

/-- `process_tts_json`, the `POST /tts` handler (tts_api.py lines
73-171).  Top-level validation: a JSON parse failure, a missing
`requests` key, a non-list `requests` value and an empty `requests` list
each return a JSON object with an `error` key.  Otherwise the handler
processes either the first request only (`return_first_only`) or all of
them; if no file was generated it returns an error object, if
`return_first_only` is set or exactly one file was generated it returns
that file as a binary response, and otherwise a JSON summary of the
basenames.  The temporary-directory bookkeeping is filesystem-only and
not modelled. -/
def process_tts_json (env : Env) (upload : BatchJson)
    (return_first_only : Bool) : TtsResponse × List Event :=
  match upload with
  | BatchJson.malformed msg =>
      (TtsResponse.jsonError ("Invalid JSON format: " ++ msg), [])
  | BatchJson.noRequestsKey =>
      (TtsResponse.jsonError "Invalid JSON format. Expected 'requests' array.", [])
  | BatchJson.requestsNotList =>
      (TtsResponse.jsonError "Invalid JSON format. Expected 'requests' array.", [])
  | BatchJson.requestsList reqs =>
      match reqs with
      | [] => (TtsResponse.jsonError "No requests found in JSON", [])
      | _ :: _ =>
          let toProcess := if return_first_only then reqs.take 1 else reqs
          let run := httpLoop env 0 toProcess
          match run.1 with
          | [] => (TtsResponse.jsonError "No speech files could be generated", run.2)
          | f :: fs =>
              if return_first_only then (TtsResponse.fileResponse f, run.2)
              else if fs = [] then (TtsResponse.fileResponse f, run.2)
              else (TtsResponse.filesSummary ((f :: fs).map basename), run.2)

/-- Expected output filenames of a batch, one per request starting at
zero-based index `i`: the explicit `output_file` field or the default
`output_<index+1>.mp3` (spec section 8 and the batch file format of
section 6). -/
def expectedNames : Nat → List TTSRequest → List String
  | _, [] => []
  | i, r :: rest => r.output_file.getD (defaultOutputFile i) :: expectedNames (i + 1) rest

/-- Concrete oracle: identity translator, synthesis always succeeds. -/
def envAllOk : Env :=
  { trans := fun t _ => Except.ok t
    synth := fun _ _ _ => true }

/-- Concrete oracle: translation service always raises, synthesis
always succeeds. -/
def envTransFails : Env :=
  { trans := fun _ _ => Except.error "service unavailable"
    synth := fun _ _ _ => true }

/-- Concrete request with an explicit output filename. -/
def reqHello : TTSRequest :=
  { text := some "Hello world", voice := none, rate := none, volume := none
    translate_to_hindi := none, output_file := some "a.mp3" }

/-- Concrete request relying on the default output filename. -/
def reqDefaultName : TTSRequest :=
  { text := some "Second line", voice := some "en-US-GuyNeural", rate := none
    volume := none, translate_to_hindi := none, output_file := none }

/-- Concrete request whose text is empty, hence skipped. -/
def reqEmpty : TTSRequest :=
  { text := some "", voice := none, rate := none, volume := none
    translate_to_hindi := none, output_file := none }

/-- Traces concatenate under `outputFiles`. -/
theorem outputFiles_append (l m : List Event) :
    outputFiles (l ++ m) = outputFiles l ++ outputFiles m := by
  simp [outputFiles, List.filterMap_append]

/-- When synthesis always succeeds, a `speak_async` run writes exactly
its output file. -/
theorem outputFiles_speak_async (env : Env) (tts : EdgeTTS)
    (text out : String) (thindi : Bool)
    (hs : ∀ c t o, env.synth c t o = true) :
    outputFiles (speak_async env tts text out thindi).2 = [out] := by
  cases thindi <;> simp [speak_async, outputFiles, isWrote, hs]

/-- A successful `speak_async` run records the invocation of the audio
player on its output file. -/
theorem played_mem_speak_async (env : Env) (tts : EdgeTTS)
    (text out : String) (thindi : Bool)
    (h : (speak_async env tts text out thindi).1 = true) :
    Event.played out ∈ (speak_async env tts text out thindi).2 := by
  simp only [speak_async] at h ⊢
  cases hsy : env.synth tts (if thindi then translate_text env text "hi" else text) out with
  | false => rw [hsy] at h; simp at h
  | true => simp

/-- C1: the Synchronous Bridge returns the same result from a plain call
site (no active scheduler, fresh event loop run to completion) and from
inside an already-active scheduler (a RuntimeError whose message
contains "already running" is caught and the pipeline runs on a joined
worker thread), for every text, output filename, translate flag and
pipeline outcome. -/
theorem claim_C1_bridge_same_result (env : Env) (tts : EdgeTTS)
    (text out : String) (thindi : Bool) (msg : String)
    (h : containsSubstring msg "already running" = true) :
    speak env tts text out thindi (some msg) =
      speak env tts text out thindi none := by
  simp [speak, h]

/-- C1 witness: a concrete message containing "already running" takes
the worker-thread path and agrees with the plain path. -/
theorem claim_C1_witness :
    speak envAllOk EdgeTTS.fresh "Hello" "out.mp3" false
        (some "This event loop is already running") =
      speak envAllOk EdgeTTS.fresh "Hello" "out.mp3" false none :=
  claim_C1_bridge_same_result envAllOk EdgeTTS.fresh "Hello" "out.mp3" false
    "This event loop is already running" (by decide)

/-- C2: for every batch whose JSON parses and is iterated - under every
oracle, including one where each individual synthesis fails -
`process_json_input` returns `true`; per-request failures never reach
the returned boolean. -/
theorem claim_C2_batch_returns_true (env : Env) (reqs : List TTSRequest) :
    ∃ evs, process_json_input env (JsonInput.parsed reqs) =
      Except.ok (true, evs) :=
  ⟨processRequests env 0 EdgeTTS.fresh reqs, rfl⟩

/-- C5: `translate_text` never raises, and whenever the underlying
translation call fails with any exception it returns the original input
text unchanged. -/
theorem claim_C5_translate_fail_open (env : Env) (text target err : String)
    (h : env.trans text target = Except.error err) :
    translate_text env text target = text := by
  simp [translate_text, h]

/-- C5 witness: with a translation service that always raises, the
original text comes back unchanged. -/
theorem claim_C5_witness :
    translate_text envTransFails "Hello" "hi" = "Hello" :=
  claim_C5_translate_fail_open envTransFails "Hello" "hi"
    "service unavailable" rfl

/-- C3 counterexample: on structurally invalid JSON the CLI batch path
does not raise to its caller - the outer `except Exception` handler of
`process_json_input` catches the parse error and returns a plain
`false` (`Except.ok`, not `Except.error`). -/
theorem claim_C3_counterexample :
    process_json_input envAllOk
        (JsonInput.parseError "Expecting value: line 1 column 1 (char 0)") =
      Except.ok (false, []) := rfl

/-- C3 amended: for structurally invalid JSON the CLI batch path catches
the error, logs it and returns `false` to its caller rather than
raising, while the HTTP path converts the malformed input into a
structured JSON error object. -/
theorem claim_C3_amended_cli_catches (env : Env) (msg : String) (flag : Bool) :
    process_json_input env (JsonInput.parseError msg) = Except.ok (false, []) ∧
    (process_tts_json env (BatchJson.malformed msg) flag).1 =
      TtsResponse.jsonError ("Invalid JSON format: " ++ msg) :=
  ⟨rfl, rfl⟩

/-- C4 counterexample: a request handled through the HTTP Service does
trigger the Audio Player - a successful one-request upload returns a
binary file response and its trace contains the `play_audio` invocation
on the generated file. -/
theorem claim_C4_counterexample :
    (process_tts_json envAllOk (BatchJson.requestsList [reqHello]) false).1 =
      TtsResponse.fileResponse (OUTPUT_DIR ++ "/" ++ "a.mp3") ∧
    Event.played (OUTPUT_DIR ++ "/" ++ "a.mp3") ∈
      (process_tts_json envAllOk (BatchJson.requestsList [reqHello]) false).2 :=
  ⟨rfl, by decide⟩

/-- C4 amended: audio playback is invoked on the HTTP path exactly as on
the CLI path, because both go through `speak_async`: whenever the HTTP
`generate_speech` succeeds, `play_audio` has been invoked on the output
file as a side effect of speech generation. -/
theorem claim_C4_amended_http_plays (env : Env)
    (text voice rate volume out : String) (thindi : Bool)
    (h : (generate_speech env text voice rate volume out thindi).1 = true) :
    Event.played out ∈ (generate_speech env text voice rate volume out thindi).2 := by
  unfold generate_speech at h ⊢
  exact played_mem_speak_async _ _ _ _ _ h

/-- C4 witness: a concrete successful HTTP generation whose trace shows
the audio-player invocation. -/
theorem claim_C4_witness :
    Event.played "o.mp3" ∈
      (generate_speech envAllOk "Hi" "v" "+0%" "+0%" "o.mp3" false).2 :=
  claim_C4_amended_http_plays envAllOk "Hi" "v" "+0%" "+0%" "o.mp3" false rfl

/-- When synthesis always succeeds, the batch loop writes exactly the
expected file for every non-empty request, whatever the starting index
and engine state. -/
theorem processRequests_outputs (env : Env)
    (hs : ∀ c t o, env.synth c t o = true) (reqs : List TTSRequest) :
    ∀ (i : Nat) (tts : EdgeTTS), (∀ r ∈ reqs, r.text.getD "" ≠ "") →
      outputFiles (processRequests env i tts reqs) = expectedNames i reqs := by
  induction reqs with
  | nil => intro i tts _; rfl
  | cons r rest ih =>
      intro i tts h
      have hr : r.text.getD "" ≠ "" := h r (List.mem_cons_self r rest)
      have hrest : ∀ q ∈ rest, q.text.getD "" ≠ "" :=
        fun q hq => h q (List.mem_cons_of_mem r hq)
      rw [processRequests, if_neg hr]
      simp only [speak]
      rw [outputFiles_append, outputFiles_speak_async env _ _ _ _ hs,
        ih (i + 1) (requestConfig r) hrest, expectedNames]
      rfl

/-- The length of `expectedNames` is the number of requests. -/
theorem expectedNames_length (reqs : List TTSRequest) :
    ∀ i, (expectedNames i reqs).length = reqs.length := by
  induction reqs with
  | nil => intro i; rfl
  | cons r rest ih => intro i; simp [expectedNames, ih]

/-- C6: for every batch of N requests with non-empty texts, with
synthesis stubbed to always succeed, the Batch Processor writes exactly
N output files, each named by the explicit `output_file` field or, when
absent, the default `output_<index+1>.mp3`. -/
theorem claim_C6_batch_produces_named_files (env : Env) (reqs : List TTSRequest)
    (hs : ∀ c t o, env.synth c t o = true)
    (h : ∀ r ∈ reqs, r.text.getD "" ≠ "") :
    outputFiles (processRequests env 0 EdgeTTS.fresh reqs) = expectedNames 0 reqs ∧
    (outputFiles (processRequests env 0 EdgeTTS.fresh reqs)).length = reqs.length := by
  refine ⟨processRequests_outputs env hs reqs 0 EdgeTTS.fresh h, ?len⟩
  rw [processRequests_outputs env hs reqs 0 EdgeTTS.fresh h,
    expectedNames_length]

/-- C6 witness: a concrete two-request batch yields the explicit name
and the default name of the second position. -/
theorem claim_C6_witness :
    outputFiles (processRequests envAllOk 0 EdgeTTS.fresh [reqHello, reqDefaultName]) =
      ["a.mp3", "output_2.mp3"] :=
  Eq.trans
    (claim_C6_batch_produces_named_files envAllOk [reqHello, reqDefaultName]
      (fun _ _ _ => rfl) (by decide)).1
    (by rfl)

/-- When synthesis always succeeds, the number of files the batch loop
writes is the number of requests with non-empty text. -/
theorem processRequests_output_count (env : Env)
    (hs : ∀ c t o, env.synth c t o = true) (reqs : List TTSRequest) :
    ∀ (i : Nat) (tts : EdgeTTS),
      (outputFiles (processRequests env i tts reqs)).length =
        reqs.countP (fun r => !(r.text.getD "" == "")) := by
  induction reqs with
  | nil => intro i tts; rfl
  | cons r rest ih =>
      intro i tts
      by_cases hr : r.text.getD "" = ""
      · rw [processRequests, if_pos hr, ih, List.countP_cons]
        simp [hr]
      · rw [processRequests, if_neg hr]
        simp only [speak]
        rw [outputFiles_append, outputFiles_speak_async env _ _ _ _ hs,
          List.countP_cons]
        simp [hr, ih]

/-- C7: an empty-text request is skipped (no speech generation, no
output file) and the batch continues in order; a batch of size N with
exactly one empty-text entry, with synthesis stubbed to succeed, yields
N - 1 output files.  The second conjunct is the skip step itself: at any
index and engine state the empty request leaves the trace untouched
apart from advancing the index. -/
theorem claim_C7_empty_text_skipped (env : Env)
    (pre : List TTSRequest) (r : TTSRequest) (post : List TTSRequest)
    (hs : ∀ c t o, env.synth c t o = true)
    (hr : r.text.getD "" = "")
    (hne : ∀ q ∈ pre ++ post, q.text.getD "" ≠ "") :
    (outputFiles (processRequests env 0 EdgeTTS.fresh (pre ++ r :: post))).length =
      (pre ++ r :: post).length - 1 ∧
    (∀ (i : Nat) (tts : EdgeTTS) (rest : List TTSRequest),
      processRequests env i tts (r :: rest) = processRequests env (i + 1) tts rest) := by
  constructor
  · rw [processRequests_output_count env hs]
    rw [List.countP_append, List.countP_cons]
    have hpre : ∀ q ∈ pre, (!(q.text.getD "" == "")) = true := by
      intro q hq
      simp [hne q (List.mem_append_left post hq)]
    have hpost : ∀ q ∈ post, (!(q.text.getD "" == "")) = true := by
      intro q hq
      simp [hne q (List.mem_append_right pre hq)]
    rw [List.countP_eq_length.mpr hpre, List.countP_eq_length.mpr hpost]
    simp [hr]
  · intro i tts rest
    rw [processRequests, if_pos hr]

/-- C7 witness: a concrete three-request batch with one empty entry
yields two output files. -/
theorem claim_C7_witness :
    (outputFiles (processRequests envAllOk 0 EdgeTTS.fresh
        ([reqHello] ++ reqEmpty :: [reqDefaultName]))).length =
      ([reqHello] ++ reqEmpty :: [reqDefaultName]).length - 1 :=
  (claim_C7_empty_text_skipped envAllOk [reqHello] reqEmpty [reqDefaultName]
    (fun _ _ _ => rfl) (by decide) (by decide)).1

/-- C10: default output filenames come from the position in the original
requests list, and a skipped empty-text entry still consumes its index:
after the skip at index i, the following request without an explicit
`output_file` is written as `output_<i+2>.mp3` (its original-position
number), leaving a gap at `output_<i+1>.mp3` instead of renumbering. -/
theorem claim_C10_skipped_entry_keeps_index (env : Env)
    (hs : ∀ c t o, env.synth c t o = true)
    (i : Nat) (tts : EdgeTTS) (rskip rnext : TTSRequest)
    (rest : List TTSRequest)
    (h0 : rskip.text.getD "" = "")
    (h1 : rnext.text.getD "" ≠ "")
    (h2 : rnext.output_file = none) :
    processRequests env i tts (rskip :: rnext :: rest) =
      processRequests env (i + 1) tts (rnext :: rest) ∧
    outputFiles (processRequests env i tts (rskip :: rnext :: rest)) =
      defaultOutputFile (i + 1) ::
        outputFiles (processRequests env (i + 2) (requestConfig rnext) rest) := by
  have hskip : processRequests env i tts (rskip :: rnext :: rest) =
      processRequests env (i + 1) tts (rnext :: rest) := by
    rw [processRequests, if_pos h0]
  refine ⟨hskip, ?_⟩
  rw [hskip, processRequests, if_neg h1]
  simp only [speak]
  rw [h2]
  rw [outputFiles_append, outputFiles_speak_async env _ _ _ _ hs]
  rfl

/-- C10 witness: a concrete skipped entry followed by a default-named
request produces `output_2.mp3`, leaving the gap at `output_1.mp3`. -/
theorem claim_C10_witness :
    processRequests envAllOk 0 EdgeTTS.fresh [reqEmpty, reqDefaultName] =
      processRequests envAllOk 1 EdgeTTS.fresh [reqDefaultName] ∧
    outputFiles (processRequests envAllOk 0 EdgeTTS.fresh [reqEmpty, reqDefaultName]) =
      defaultOutputFile 1 ::
        outputFiles (processRequests envAllOk 2 (requestConfig reqDefaultName) []) :=
  claim_C10_skipped_entry_keeps_index envAllOk (fun _ _ _ => rfl) 0
    EdgeTTS.fresh reqEmpty reqDefaultName [] (by decide) (by decide) rfl

/-- C8: when the uploaded batch lacks a `requests` key, has a non-list
`requests` value, or has an empty `requests` list, `POST /tts` returns a
JSON object with an `error` key and no binary audio payload. -/
theorem claim_C8_bad_shape_json_error (env : Env) (flag : Bool)
    (upload : BatchJson)
    (h : upload = BatchJson.noRequestsKey ∨ upload = BatchJson.requestsNotList ∨
      upload = BatchJson.requestsList []) :
    (∃ msg, (process_tts_json env upload flag).1 = TtsResponse.jsonError msg) ∧
    (∀ p, (process_tts_json env upload flag).1 ≠ TtsResponse.fileResponse p) := by
  rcases h with h | h | h <;> subst h <;>
    exact ⟨⟨_, rfl⟩, fun p hp => by simp [process_tts_json] at hp⟩

/-- C8 witness: a concrete upload without the `requests` key gets a JSON
error object. -/
theorem claim_C8_witness :
    ∃ msg, (process_tts_json envAllOk BatchJson.noRequestsKey false).1 =
      TtsResponse.jsonError msg :=
  (claim_C8_bad_shape_json_error envAllOk false BatchJson.noRequestsKey
    (Or.inl rfl)).1

/-- C9 counterexample: on an unsupported platform `play_audio` returns
`false` directly without attempting the webbrowser fallback - even
though the fallback would have succeeded (`webOpenRaises = false`, yet
the result is `false` and the trace shows no `webOpen` attempt). -/
theorem claim_C9_counterexample :
    play_audio
        { os := OSKind.unsupported, shellRaises := false, webOpenRaises := false }
        "audio.mp3" =
      (false, []) := rfl

/-- C9 amended: `play_audio` never raises; when the platform-specific
playback attempt raises an exception it falls back to opening the file
with the generic handler and returns `false` exactly when that fallback
also fails; but on an unsupported platform it returns `false` directly
without attempting the fallback; and a non-raising platform attempt
returns `true`. -/
theorem claim_C9_amended_play_audio (penv : PlayEnv) (path : String) :
    (penv.os = OSKind.unsupported → play_audio penv path = (false, [])) ∧
    (penv.os ≠ OSKind.unsupported → penv.shellRaises = true →
      (play_audio penv path).1 = !penv.webOpenRaises ∧
      Event.webOpen path ∈ (play_audio penv path).2) ∧
    (penv.os ≠ OSKind.unsupported → penv.shellRaises = false →
      (play_audio penv path).1 = true) := by
  obtain ⟨os, sh, web⟩ := penv
  cases os <;> cases sh <;> cases web <;>
    simp [play_audio, webFallback]

/-- C9 witness: a concrete raising Windows playback attempt with a
working fallback returns `true` and shows the fallback attempt. -/
theorem claim_C9_witness :
    (play_audio { os := OSKind.nt, shellRaises := true, webOpenRaises := false }
        "f.mp3").1 = !(false : Bool) ∧
    Event.webOpen "f.mp3" ∈
      (play_audio { os := OSKind.nt, shellRaises := true, webOpenRaises := false }
        "f.mp3").2 :=
  (claim_C9_amended_play_audio
    { os := OSKind.nt, shellRaises := true, webOpenRaises := false }
    "f.mp3").2.1 (by decide) rfl

end TTS
